import Mathlib

/-!
Verification development for the PDF redaction/obfuscation system.

The definitions below are shallow embeddings of the Python sources:
  * `src/domain/services/quality_evaluation_service.py`
  * `src/domain/services/document_obfuscation_service.py`
  * `src/domain/services/error_handler.py`
  * `src/application/pdf_obfuscation_app.py`
  * `src/adapters/pymupdf_adapter.py`, `pypdfium2_adapter.py`,
    `pdfplumber_adapter.py`
Python `float` arithmetic is modelled over `ℚ`; Python `str` is modelled by
`String` (a list of characters), with `str.lower`, `str.split` and the regular
expression `^[^\w]+|[^\w]+$` modelled character-wise for the ASCII repertoire.
-/

namespace PdfObfuscation

/-- Python `str.lower()` applied character-wise (ASCII repertoire). -/
def lowerStr (s : String) : String := ⟨s.data.map Char.toLower⟩

/-- One whitespace-separated chunk accumulator step of Python `str.split()`:
splits on runs of whitespace and drops empty chunks. -/
def splitWsAux : List Char → List Char → List (List Char)
  | [], acc => if acc.isEmpty then [] else [acc.reverse]
  | c :: rest, acc =>
    if c.isWhitespace then
      if acc.isEmpty then splitWsAux rest [] else acc.reverse :: splitWsAux rest []
    else splitWsAux rest (c :: acc)

/-- Python `str.split()` with no separator argument. -/
def splitWs (l : List Char) : List (List Char) := splitWsAux l []

/-- The backtick character U+0060. -/
def backtickChar : Char := Char.ofNat 96

/-- The straight apostrophe character U+0027. -/
def apostropheChar : Char := Char.ofNat 39

/-- The straight double-quote character U+0022. -/
def dquoteChar : Char := Char.ofNat 34

/-- The acute accent character U+00B4. -/
def acuteChar : Char := Char.ofNat 180

/-- Right single quotation mark U+2019. -/
def rsquoChar : Char := Char.ofNat 0x2019

/-- Left single quotation mark U+2018. -/
def lsquoChar : Char := Char.ofNat 0x2018

/-- Left double quotation mark U+201C. -/
def ldquoChar : Char := Char.ofNat 0x201C

/-- Right double quotation mark U+201D. -/
def rdquoChar : Char := Char.ofNat 0x201D

/-- Greek varia U+1FEF (canonically decomposes to the backtick U+0060). -/
def greekVariaChar : Char := Char.ofNat 0x1FEF

/-- Combining acute accent U+0301 (category Mn). -/
def combiningAcuteChar : Char := Char.ofNat 0x0301

/-- The quote/apostrophe replacement chain of `normalize_punctuation`
(`quality_evaluation_service.py` lines 19-20); every replacement in the source
maps one character to one character. -/
def replaceQuoteChar (c : Char) : Char :=
  if c = rsquoChar || c = lsquoChar || c = backtickChar || c = acuteChar then
    apostropheChar
  else if c = ldquoChar || c = rdquoChar then dquoteChar
  else c

/-- Models `unicodedata.normalize('NFD', c)` followed by removal of the
combining marks (category Mn), as used by `normalize_punctuation`
(`quality_evaluation_service.py` lines 23-24).  The table lists the canonical
decompositions of the characters relevant to this development (Latin letters
with diacritics lose their combining mark, U+1FEF GREEK VARIA canonically
decomposes to U+0060 GRAVE ACCENT which is kept since its category is Sk,
a lone combining mark is removed); characters with no canonical decomposition
map to themselves. -/
def nfdStrip (c : Char) : List Char :=
  if c = 'é' || c = 'è' || c = 'ê' || c = 'ë' then ['e']
  else if c = 'à' || c = 'â' || c = 'ä' then ['a']
  else if c = 'î' || c = 'ï' then ['i']
  else if c = 'ô' || c = 'ö' then ['o']
  else if c = 'û' || c = 'ù' || c = 'ü' then ['u']
  else if c = 'ç' then ['c']
  else if c = 'É' || c = 'È' then ['E']
  else if c = 'À' then ['A']
  else if c = 'Ç' then ['C']
  else if c = greekVariaChar then [backtickChar]
  else if c = combiningAcuteChar then []
  else [c]

/-- Per-character body of the loop of `normalize_punctuation`
(`quality_evaluation_service.py` lines 17-25): quote replacement, then NFD
normalization with combining marks removed. -/
def normalizeChar (c : Char) : List Char := nfdStrip (replaceQuoteChar c)

/-- `normalize_punctuation` (`quality_evaluation_service.py` lines 13-27) on a
list of characters. -/
def normalizePunctuation (l : List Char) : List Char :=
  (l.map normalizeChar).flatten

/-- `normalize_punctuation` on a `String`. -/
def normalizePunctuationStr (s : String) : String := ⟨normalizePunctuation s.data⟩

/-- Case-insensitive containment `term.lower() in text.lower()` as used by
`QualityEvaluationService._find_terms_in_text`. -/
def termPresent (text term : String) : Bool :=
  decide ((lowerStr term).data <:+: (lowerStr text).data)

/-- `QualityEvaluationService._find_terms_in_text`
(`quality_evaluation_service.py` lines 239-248). -/
def findTermsInText (text : String) (terms : List String) : List String :=
  terms.filter (fun term => termPresent text term)

/-- Result of `QualityEvaluationService.evaluate_completeness` (the fields of
the returned dictionary that later computations consume). -/
structure CompletenessResult where
  score : ℚ
  totalTermsFound : ℕ
  successfullyObfuscated : ℤ
  remainingTerms : List String
  deriving DecidableEq

/-- `QualityEvaluationService.evaluate_completeness`
(`quality_evaluation_service.py` lines 75-114), parametrized directly by the
two extracted texts (the OCR text extractor is an external collaborator). -/
def evaluateCompleteness (originalText obfuscatedText : String)
    (termsToObfuscate : List String) : CompletenessResult :=
  let originalTerms := findTermsInText originalText termsToObfuscate
  let obfuscatedTerms := findTermsInText obfuscatedText termsToObfuscate
  let totalTermsFound := originalTerms.length
  let successfullyObfuscated : ℤ := (totalTermsFound : ℤ) - obfuscatedTerms.length
  { score := if 0 < totalTermsFound then
        (successfullyObfuscated : ℚ) / (totalTermsFound : ℚ)
      else 1
    totalTermsFound := totalTermsFound
    successfullyObfuscated := successfullyObfuscated
    remainingTerms := obfuscatedTerms }

/-- Python regex class `\w` (word character), ASCII repertoire. -/
def isWordChar (c : Char) : Bool := c.isAlphanum || c = '_'

/-- The regex substitution `re.sub(r'^[^\w]+|[^\w]+$', '', word)` used by
`evaluate_precision` (`quality_evaluation_service.py` lines 139-140): removes
the leading and the trailing run of non-word characters. -/
def stripPunct (w : List Char) : List Char :=
  (((w.dropWhile (fun c => !isWordChar c)).reverse.dropWhile
    (fun c => !isWordChar c)).reverse)

/-- The tokenization of `evaluate_precision` (`quality_evaluation_service.py`
lines 135-140): lowercase the text, split on whitespace, keep the words whose
punctuation-stripped form is non-empty, and normalize each kept word. -/
def cleanWords (text : String) : List String :=
  ((splitWs (text.data.map Char.toLower)).filter
      (fun w => !(stripPunct w).isEmpty)).map
    (fun w => ⟨normalizePunctuation (stripPunct w)⟩)

/-- Python's `<=` on strings: lexicographic comparison of the character
sequences by code point. -/
def wordLe (a b : String) : Prop := a.data ≤ b.data

instance wordLe.decidableRel : DecidableRel wordLe :=
  fun a b => inferInstanceAs (Decidable (a.data ≤ b.data))

instance wordLe.isTrans : IsTrans String wordLe :=
  ⟨fun _ _ _ h₁ h₂ => le_trans h₁ h₂⟩

instance wordLe.isTotal : IsTotal String wordLe :=
  ⟨fun a b => le_total a.data b.data⟩

instance wordLe.isAntisymm : IsAntisymm String wordLe :=
  ⟨fun a b h₁ h₂ => by
    have h := le_antisymm h₁ h₂
    cases a
    cases b
    exact congrArg String.mk h⟩

/-- Python `list.sort()` on strings (`quality_evaluation_service.py` lines
143-144); since equal keys are identical strings, any correct comparison sort
produces this list. -/
def sortWords (ws : List String) : List String :=
  List.insertionSort wordLe ws

/-- The word-matching loop of `evaluate_precision`
(`quality_evaluation_service.py` lines 146-157): walks the original words,
removing each from a working copy of the obfuscated words when present
(Python `list.remove`: first occurrence); unmatched original words accumulate
as missing.  Returns (remaining obfuscated words, missing words). -/
def removeLoop : List String → List String → List String × List String
  | [], remaining => (remaining, [])
  | w :: ws, remaining =>
    if w ∈ remaining then removeLoop ws (remaining.erase w)
    else
      let p := removeLoop ws remaining
      (p.1, w :: p.2)

/-- Pre-calculated target-term data of `evaluate_precision`
(`quality_evaluation_service.py` lines 162-168). -/
structure TargetData where
  term : String
  words : List String
  deriving DecidableEq

/-- Builds the `TargetData` for one term: `normalize_punctuation(term).lower()`
and its token list (`target_term.split() if ' ' in target_term else
[target_term]`). -/
def mkTargetData (term : String) : TargetData :=
  let t := lowerStr (normalizePunctuationStr term)
  { term := t
    words := if ' ' ∈ t.data then (splitWs t.data).map (fun w => (⟨w⟩ : String))
      else [t] }

/-- `QualityEvaluationService._is_word_obfuscation_target_optimized`
(`quality_evaluation_service.py` lines 250-287). -/
def isWordObfuscationTarget (missingWord : String) (td : TargetData) : Bool :=
  let m := normalizePunctuationStr missingWord
  if m = td.term then true
  else if 1 < td.words.length then
    (td.words.map normalizePunctuationStr).contains m
  else if 2 ≤ m.data.length ∧ m.data <:+: td.term.data then true
  else false

/-- Python `round(x, 3)`, modelled over `ℚ`.  Python rounds half to even on
the binary value of the float; this model rounds half up, and the two agree
on every value considered in this development (none is a half-way tie). -/
def round3 (q : ℚ) : ℚ := ((round (q * 1000) : ℤ) : ℚ) / 1000

/-- Result of `QualityEvaluationService.evaluate_precision` (the fields of the
returned dictionary that later computations consume). -/
structure PrecisionResult where
  score : ℚ
  missingWords : List String
  falsePositives : List String
  targetedTermsFound : List String
  remainingWordsObfuscated : List String
  totalOriginalWords : ℕ
  deriving DecidableEq

/-- Core of `QualityEvaluationService.evaluate_precision`
(`quality_evaluation_service.py` lines 142-208) on the two sorted cleaned word
lists. -/
def evaluatePrecisionFromWords (originalWords obfuscatedWords : List String)
    (termsToObfuscate : List String) : PrecisionResult :=
  let p := removeLoop originalWords obfuscatedWords
  let missingWords := p.2
  let targetData := termsToObfuscate.map mkTargetData
  let trueFalsePositives := missingWords.filter
    (fun m => !(targetData.any (fun td => isWordObfuscationTarget m td)))
  let targetedTermsFound := missingWords.filter
    (fun m => targetData.any (fun td => isWordObfuscationTarget m td))
  let totalOriginalWords := originalWords.length
  { score := if 0 < totalOriginalWords then
        round3 (1 - (trueFalsePositives.length : ℚ) / (totalOriginalWords : ℚ))
      else 1
    missingWords := missingWords
    falsePositives := trueFalsePositives
    targetedTermsFound := targetedTermsFound
    remainingWordsObfuscated := p.1
    totalOriginalWords := totalOriginalWords }

/-- `QualityEvaluationService.evaluate_precision`
(`quality_evaluation_service.py` lines 116-208), parametrized directly by the
two extracted texts. -/
def evaluatePrecision (originalText obfuscatedText : String)
    (termsToObfuscate : List String) : PrecisionResult :=
  evaluatePrecisionFromWords (sortWords (cleanWords originalText))
    (sortWords (cleanWords obfuscatedText)) termsToObfuscate

/-- `QualityEvaluationService.calculate_overall_score`
(`quality_evaluation_service.py` lines 43-73). -/
def calculateOverallScore (completenessScore precisionScore
    visualIntegrityScore : ℚ) : ℚ :=
  round3 (completenessScore * 0.45 + precisionScore * 0.45 +
    visualIntegrityScore * 0.10)

/-- `QualityMetrics` (`entities.py` lines 18-28). -/
structure QualityMetrics where
  completenessScore : ℚ
  precisionScore : ℚ
  visualIntegrityScore : ℚ
  overallScore : ℚ
  nonObfuscatedTerms : List String
  falsePositiveTerms : List String
  deriving DecidableEq

/-- `QualityReport` (`entities.py` lines 31-39); the timestamp is an external
effect and is not modelled. -/
structure QualityReport where
  originalDocumentPath : String
  obfuscatedDocumentPath : String
  termsToObfuscate : List String
  engineUsed : String
  metrics : QualityMetrics
  deriving DecidableEq

/-- The details map passed to `create_quality_report` (the two entries it
reads: `completeness.remaining_terms` and `precision.false_positives`). -/
structure ReportDetails where
  completenessRemainingTerms : List String
  precisionFalsePositives : List String
  deriving DecidableEq

/-- `QualityEvaluationService.create_quality_report`
(`quality_evaluation_service.py` lines 289-350): computes the overall score
from the three given scores and packages the metrics. -/
def createQualityReport (originalPath obfuscatedPath : String)
    (terms : List String) (engineUsed : String)
    (completenessScore precisionScore visualIntegrityScore : ℚ)
    (details : ReportDetails) : QualityReport :=
  { originalDocumentPath := originalPath
    obfuscatedDocumentPath := obfuscatedPath
    termsToObfuscate := terms
    engineUsed := engineUsed
    metrics :=
      { completenessScore := completenessScore
        precisionScore := precisionScore
        visualIntegrityScore := visualIntegrityScore
        overallScore := calculateOverallScore completenessScore precisionScore
          visualIntegrityScore
        nonObfuscatedTerms := details.completenessRemainingTerms
        falsePositiveTerms := details.precisionFalsePositives } }

/-- `ProcessingStatus` (`entities.py` lines 11-15). -/
inductive ProcessingStatus where
  | success
  | notFound
  | error
  deriving DecidableEq

/-- `Position` (`entities.py` lines 52-62); its constructor-time validation
(`x0 ≤ x1` and `y0 ≤ y1`) is stated separately where needed. -/
structure Position where
  x0 : ℚ
  y0 : ℚ
  x1 : ℚ
  y1 : ℚ
  deriving DecidableEq

/-- `TermOccurrence` (`entities.py` lines 65-74); a `Term` is its text. -/
structure TermOccurrence where
  term : String
  position : Position
  pageNumber : ℕ
  deriving DecidableEq

/-- `TermResult` (`entities.py` lines 77-93). -/
structure TermResult where
  term : String
  status : ProcessingStatus
  occurrences : List TermOccurrence
  message : String
  deriving DecidableEq

/-- `TermResult.occurrences_count` (`entities.py` lines 85-88). -/
def TermResult.occurrencesCount (r : TermResult) : ℕ := r.occurrences.length

/-- `TermResult.was_found` (`entities.py` lines 90-93). -/
def TermResult.wasFound (r : TermResult) : Bool :=
  decide (r.status = ProcessingStatus.success) && decide (0 < r.occurrences.length)

/-- `ObfuscationResult` (`entities.py` lines 133-152); the output document is
its path. -/
structure ObfuscationResult where
  success : Bool
  outputDocument : Option String
  termResults : List TermResult
  totalTermsProcessed : ℕ
  totalOccurrencesObfuscated : ℕ
  message : String
  error : Option String
  deriving DecidableEq

/-- `DocumentObfuscationService.create_term_results`
(`document_obfuscation_service.py` lines 22-54). -/
def createTermResults (terms : List String) (occurrences : List TermOccurrence) :
    List TermResult :=
  terms.map (fun term =>
    let termOccurrences := occurrences.filter
      (fun occ => lowerStr occ.term = lowerStr term)
    if 0 < termOccurrences.length then
      { term := term, status := ProcessingStatus.success,
        occurrences := termOccurrences,
        message := "Found " ++ toString termOccurrences.length ++ " occurrences" }
    else
      { term := term, status := ProcessingStatus.notFound,
        occurrences := termOccurrences, message := "Term not found" })

/-- `DocumentObfuscationService.calculate_obfuscation_metrics`
(`document_obfuscation_service.py` lines 79-94). -/
def calculateObfuscationMetrics (termResults : List TermResult) : ℕ × ℕ :=
  (termResults.length,
    ((termResults.filter TermResult.wasFound).map TermResult.occurrencesCount).sum)

/-- `DocumentObfuscationService.create_success_result`
(`document_obfuscation_service.py` lines 96-123). -/
def createSuccessResult (outputDocument : String) (termResults : List TermResult)
    (engine : String) : ObfuscationResult :=
  let m := calculateObfuscationMetrics termResults
  { success := true
    outputDocument := some outputDocument
    termResults := termResults
    totalTermsProcessed := m.1
    totalOccurrencesObfuscated := m.2
    message := "Obfuscation completed successfully using " ++ engine
    error := none }

/-- `DocumentObfuscationService.create_error_result`
(`document_obfuscation_service.py` lines 125-153); the source hard-codes
`total_occurrences_obfuscated=0` with the comment "No actual obfuscation on
error". -/
def createErrorResult (error : String) (termResults : List TermResult)
    (engine : String) : ObfuscationResult :=
  let m := calculateObfuscationMetrics termResults
  { success := false
    outputDocument := none
    termResults := termResults
    totalTermsProcessed := m.1
    totalOccurrencesObfuscated := 0
    message := "Obfuscation failed using " ++ engine
    error := some error }

/-! ### Geometry adapters -/

/-- A raw character box returned by pypdfium2's `get_charbox` in the page's
native coordinate space (origin bottom left, y increasing upward). -/
structure CharBox where
  left : ℚ
  bottom : ℚ
  right : ℚ
  top : ℚ
  deriving DecidableEq

/-- The charbox merge of `PyPdfium2Adapter.extract_text_occurrences`
(`pypdfium2_adapter.py` lines 56-62): when the match spans more than one
character, the first and last charboxes are merged corner-wise. -/
def pypdfium2MergedBox (first last : CharBox) (count : ℕ) : CharBox :=
  if 1 < count then
    { left := min first.left last.left
      bottom := min first.bottom last.bottom
      right := max first.right last.right
      top := max first.top last.top }
  else first

/-- The `Position` constructed by `PyPdfium2Adapter.extract_text_occurrences`
for one search result (`pypdfium2_adapter.py` lines 64-90): the per-axis
min/max of the merged charbox is taken and the native coordinates are used
directly (`x0=left, y0=bottom, x1=right, y1=top`). -/
def pypdfium2Position (first last : CharBox) (count : ℕ) : Position :=
  let cb := pypdfium2MergedBox first last count
  let left := min cb.left cb.right
  let right := max cb.left cb.right
  let top := max cb.top cb.bottom
  let bottom := min cb.top cb.bottom
  { x0 := left, y0 := bottom, x1 := right, y1 := top }

/-- Modelled from the spec: the coordinate contract of section 4.1 demands
that a bottom-left-origin engine flip y to the top-left-origin convention
(y measured downward from the page top) before constructing the `Position`;
for a native box this is `y0' = pageHeight - y1` and `y1' = pageHeight - y0`.
The source (`pypdfium2_adapter.py` lines 79-90) performs no such flip, which
this definition exists to demonstrate. -/
def specTopLeftPypdfium2Position (pageHeight : ℚ) (first last : CharBox)
    (count : ℕ) : Position :=
  let p := pypdfium2Position first last count
  { x0 := p.x0, y0 := pageHeight - p.y1, x1 := p.x1, y1 := pageHeight - p.y0 }

/-- The seen-set deduplication loop of
`PyMuPdfAdapter.extract_text_occurrences` (`pymupdf_adapter.py` lines 47-55):
keeps the first instance of each exact coordinate tuple. -/
def dedupSeen : List Position → List Position → List Position
  | [], _ => []
  | r :: rs, seen =>
    if r ∈ seen then dedupSeen rs seen else r :: dedupSeen rs (r :: seen)

/-- One page of `PyMuPdfAdapter.extract_text_occurrences`
(`pymupdf_adapter.py` lines 37-69): the instance lists found for the four case
variations are concatenated, deduplicated against a seen set of exact
coordinate tuples, and turned into occurrences carrying this page's number. -/
def pymupdfPage (term : String) (pageNumber : ℕ)
    (instanceLists : List (List Position)) : List TermOccurrence :=
  (dedupSeen instanceLists.flatten []).map
    (fun r => { term := term, position := r, pageNumber := pageNumber })

/-- The page loop of `PyMuPdfAdapter.extract_text_occurrences`: page
`page_num` (0-based) contributes occurrences numbered `page_num + 1`. -/
def pymupdfExtractAux (term : String) :
    ℕ → List (List (List Position)) → List TermOccurrence
  | _, [] => []
  | i, p :: ps => pymupdfPage term (i + 1) p ++ pymupdfExtractAux term (i + 1) ps

/-- `PyMuPdfAdapter.extract_text_occurrences` (`pymupdf_adapter.py` lines
20-75), parametrized by the per-page, per-case-variation search results of
the underlying `page.search_for` calls. -/
def pymupdfExtract (term : String) (pages : List (List (List Position))) :
    List TermOccurrence :=
  pymupdfExtractAux term 0 pages

/-- A word record of pdfplumber's `page.extract_words()`: text and bounding
box, with `top`/`bottom` measured downward from the page top. -/
structure PWord where
  text : String
  x0 : ℚ
  x1 : ℚ
  top : ℚ
  bottom : ℚ
  deriving DecidableEq

/-- Python `str.find`: index of the first occurrence of `pat` in `s`, `none`
when absent. -/
def findSub : List Char → List Char → Option ℕ
  | pat, [] => if pat.isEmpty then some 0 else none
  | pat, c :: rest =>
    if pat <+: (c :: rest) then some 0 else (findSub pat rest).map (· + 1)

/-- The single-word branch of `PdfPlumberAdapter.extract_text_occurrences`
(`pdfplumber_adapter.py` lines 59-90): every page word containing the
lowercased term yields one occurrence whose x-range is located
proportionally inside the word box; no deduplication is performed. -/
def pdfplumberSingleWord (term : String) (pageNumber : ℕ)
    (words : List PWord) : List TermOccurrence :=
  let termText := lowerStr term
  (words.map (fun w =>
    if termText.data <:+: (lowerStr w.text).data then
      match findSub termText.data (lowerStr w.text).data with
      | some termPos =>
        let wordWidth := w.x1 - w.x0
        let termWidth :=
          (termText.data.length : ℚ) / (w.text.data.length : ℚ) * wordWidth
        let termStartRatio := (termPos : ℚ) / (w.text.data.length : ℚ)
        let tx0 := w.x0 + termStartRatio * wordWidth
        [TermOccurrence.mk term
          (Position.mk tx0 w.top (tx0 + termWidth) w.bottom) pageNumber]
      | none =>
        [TermOccurrence.mk term
          (Position.mk w.x0 w.top w.x1 w.bottom) pageNumber]
    else [])).flatten

/-! ### Application layer (`pdf_obfuscation_app.py`) -/

/-- The exception taxonomy of `domain/exceptions.py` plus a catch-all for
built-in Python exceptions (`ValueError` etc.). -/
inductive ExcKind where
  | obfuscation
  | documentProcessing
  | fileStorage
  | validation
  | other
  deriving DecidableEq

/-- A raised Python exception: kind and message. -/
structure Exc where
  kind : ExcKind
  msg : String
  deriving DecidableEq

/-- A Python `try`/`except Exception` block: the handler receives any raised
exception. -/
def pyTry {α : Type} (body : Except Exc α) (handler : Exc → Except Exc α) :
    Except Exc α :=
  match body with
  | Except.ok a => Except.ok a
  | Except.error e => handler e

/-- Raising an exception as a statement. -/
def pyThrow (k : ExcKind) (msg : String) : Except Exc Unit :=
  Except.error ⟨k, msg⟩

/-- The kind of the escaping exception of a call, `none` when the call
returned normally. -/
def errorKindOf {α : Type} : Except Exc α → Option ExcKind
  | Except.ok _ => none
  | Except.error e => some e.kind

/-- The external collaborators of `PdfObfuscationApplication`: configuration
service, file storage, geometry adapter (PDF processor) and quality evaluator.
Every call that reaches a library or the file system may raise, so those
collaborators return `Except Exc`. -/
structure AppEnv where
  supportedEngine : String → Bool
  defaultOutputPath : String → String
  fileExists : String → Except Exc Bool
  extractOccurrences : String → String → Except Exc (List TermOccurrence)
  obfuscateOccurrences : String → List TermOccurrence → Except Exc String
  writeFile : String → String → Except Exc Unit
  engineName : String
  evalCompleteness : String → String → List String → Except Exc CompletenessResult
  evalPrecision : String → String → List String → Except Exc PrecisionResult
  evalVisual : String → String → Except Exc ℚ

/-- `ErrorHandler.handle_obfuscation_error` (`error_handler.py` lines 55-100):
a total function from the caught exception to a failure `ObfuscationResult`. -/
def handleObfuscationError (e : Exc) (engine : String) : ObfuscationResult :=
  match e.kind with
  | ExcKind.obfuscation => createErrorResult e.msg [] engine
  | ExcKind.documentProcessing =>
    createErrorResult ("Document processing error: " ++ e.msg) [] engine
  | ExcKind.fileStorage =>
    createErrorResult ("File storage error: " ++ e.msg) [] engine
  | ExcKind.validation =>
    createErrorResult ("Validation error: " ++ e.msg) [] engine
  | ExcKind.other =>
    createErrorResult ("Unexpected error during obfuscate_document: " ++ e.msg)
      [] engine

/-- The extraction loop of `_execute_obfuscation`
(`pdf_obfuscation_app.py` lines 220-224): occurrences of every term, in term
order, accumulated into one flat list. -/
def extractAllOccurrences (env : AppEnv) (path : String) :
    List String → Except Exc (List TermOccurrence)
  | [] => Except.ok []
  | t :: ts => do
    let occs ← env.extractOccurrences path t
    let rest ← extractAllOccurrences env path ts
    pure (occs ++ rest)

/-- `PdfObfuscationApplication._execute_obfuscation`
(`pdf_obfuscation_app.py` lines 203-254). -/
def executeObfuscation (env : AppEnv) (sourcePath : String)
    (terms : List String) (destPath : String) : Except Exc ObfuscationResult :=
  pyTry
    (do
      let allOccurrences ← extractAllOccurrences env sourcePath terms
      let termResults := createTermResults terms allOccurrences
      if 0 < allOccurrences.length then do
        let content ← env.obfuscateOccurrences sourcePath allOccurrences
        let _ ← env.writeFile destPath content
        pure (createSuccessResult destPath termResults env.engineName)
      else
        pure (createErrorResult "No terms found in the document" termResults
          env.engineName))
    (fun e => Except.error ⟨ExcKind.documentProcessing,
      "Error during document obfuscation " ++ sourcePath ++ ": " ++ e.msg⟩)

/-- `PdfObfuscationApplication._execute_quality_evaluation`
(`pdf_obfuscation_app.py` lines 256-324). -/
def executeQualityEvaluation (env : AppEnv)
    (originalPath obfuscatedPath : String) (terms : List String)
    (engineUsed : String) : Except Exc QualityReport :=
  pyTry
    (do
      if originalPath = "" || obfuscatedPath = "" then
        pyThrow ExcKind.documentProcessing
          "Both original and obfuscated document paths must be provided"
      if terms.isEmpty then
        pyThrow ExcKind.documentProcessing
          "At least one term must be specified for evaluation"
      let origExists ← env.fileExists originalPath
      if !origExists then
        pyThrow ExcKind.documentProcessing
          ("Original document " ++ originalPath ++ " does not exist")
      let obfExists ← env.fileExists obfuscatedPath
      if !obfExists then
        pyThrow ExcKind.documentProcessing
          ("Obfuscated document " ++ obfuscatedPath ++ " does not exist")
      let completenessResult ← env.evalCompleteness originalPath obfuscatedPath
        terms
      let precisionResult ← env.evalPrecision originalPath obfuscatedPath terms
      let visualScore ← env.evalVisual originalPath obfuscatedPath
      pure (createQualityReport originalPath obfuscatedPath terms engineUsed
        completenessResult.score precisionResult.score visualScore
        ⟨completenessResult.remainingTerms, precisionResult.falsePositives⟩))
    (fun e => Except.error ⟨ExcKind.documentProcessing,
      "Error during quality evaluation: " ++ e.msg⟩)

/-- `PdfObfuscationApplication.evaluate_quality`
(`pdf_obfuscation_app.py` lines 126-162): the `except` clause wraps any
exception into an `ObfuscationError` and re-raises it. -/
def evaluateQuality (env : AppEnv) (originalPath obfuscatedPath : String)
    (terms : List String) (engineUsed : String) : Except Exc QualityReport :=
  pyTry (executeQualityEvaluation env originalPath obfuscatedPath terms
      engineUsed)
    (fun e => Except.error ⟨ExcKind.obfuscation,
      "Error during quality evaluation: " ++ e.msg⟩)

/-- `PdfObfuscationApplication.obfuscate_document`
(`pdf_obfuscation_app.py` lines 40-124).  Python's falsy test on
`source_path`/terms is modelled by emptiness after `trim` where the source
also strips.  The `except` clause routes every exception through
`ErrorHandler.handle_obfuscation_error`, which returns a failure result. -/
def obfuscateDocument (env : AppEnv) (sourcePath : String)
    (terms : List String) (destinationPath : Option String) (engine : String)
    (evaluateQualityFlag : Bool) : Except Exc ObfuscationResult :=
  pyTry
    (do
      if sourcePath.trim = "" then
        pyThrow ExcKind.obfuscation "Source document path cannot be empty"
      if terms.isEmpty then
        pyThrow ExcKind.obfuscation "At least one term must be specified"
      if !(env.supportedEngine engine) then
        pyThrow ExcKind.obfuscation ("Engine " ++ engine ++ " not supported")
      let sourceExists ← env.fileExists sourcePath
      if !sourceExists then
        pyThrow ExcKind.obfuscation
          ("Source file " ++ sourcePath ++ " does not exist")
      let destPath := match destinationPath with
        | some d => if d = "" then env.defaultOutputPath sourcePath else d
        | none => env.defaultOutputPath sourcePath
      let termObjects := (terms.map String.trim).filter (fun t => t ≠ "")
      -- `ObfuscationRequest.__post_init__` (`entities.py` lines 124-130)
      if destPath.trim = "" then
        pyThrow ExcKind.other "Destination path cannot be empty"
      if termObjects.isEmpty then
        pyThrow ExcKind.other "Must specify at least one term to obfuscate"
      if engine.trim = "" then
        pyThrow ExcKind.other "Engine cannot be empty"
      -- `validate_obfuscation_request` (`document_obfuscation_service.py`)
      if termObjects.isEmpty then
        pyThrow ExcKind.obfuscation "Must specify at least one term to obfuscate"
      if termObjects.any (fun t => t.trim = "") then
        pyThrow ExcKind.obfuscation "All terms must be non-empty"
      if sourcePath = destPath then
        pyThrow ExcKind.obfuscation
          "Source and destination paths cannot be the same"
      let result ← executeObfuscation env sourcePath termObjects destPath
      if evaluateQualityFlag && result.success then do
        let _ ← evaluateQuality env sourcePath destPath terms engine
        pure result
      else
        pure result)
    (fun e => Except.ok (handleObfuscationError e engine))

/-- A concrete collaborator environment whose storage reports every file as
absent; all other collaborators answer normally. -/
def envNoFiles : AppEnv :=
  { supportedEngine := fun _ => true
    defaultOutputPath := fun p => p ++ "_obfuscated.pdf"
    fileExists := fun _ => Except.ok false
    extractOccurrences := fun _ _ => Except.ok []
    obfuscateOccurrences := fun _ _ => Except.ok ""
    writeFile := fun _ _ => Except.ok ()
    engineName := "pymupdf"
    evalCompleteness := fun _ _ _ => Except.ok (evaluateCompleteness "" "" [])
    evalPrecision := fun _ _ _ => Except.ok (evaluatePrecision "" "" [])
    evalVisual := fun _ _ => Except.ok 1 }

/-- A character is stable for `normalize_punctuation` when every character of
its normalization is itself normalized to itself; ASCII letters, digits and
the Latin letters of the table above are stable. -/
def goodChar (c : Char) : Bool :=
  (normalizeChar c).all (fun d => decide (normalizeChar d = [d]))

/-- A concrete term result with one found occurrence. -/
def sampleFoundTermResult : TermResult :=
  { term := "confidential"
    status := ProcessingStatus.success
    occurrences := [⟨"confidential", ⟨0, 0, 10, 10⟩, 1⟩]
    message := "Found 1 occurrences" }

/-- A concrete pdfplumber word record; a double-printed (shadowed) glyph run
produces two identical such records on one page. -/
def samplePWord : PWord := { text := "ab", x0 := 0, x1 := 10, top := 0, bottom := 10 }

/-- The occurrence the pdfplumber single-word branch produces for
`samplePWord` and the term "ab". -/
def sampleOccurrence : TermOccurrence :=
  { term := "ab", position := { x0 := 0, y0 := 0, x1 := 10, y1 := 10 }, pageNumber := 1 }

/-! ## Theorems -/

/-- A `try`/`except` block whose handler returns normally never lets an
exception escape. -/
theorem pyTry_ok_handler {α : Type} (body : Except Exc α) (f : Exc → α) :
    ∃ r, pyTry body (fun e => Except.ok (f e)) = Except.ok r := by
  cases body with
  | ok a => exact ⟨a, rfl⟩
  | error e => exact ⟨f e, rfl⟩

/-- A `try`/`except` block whose handler re-raises with a fixed exception kind
either returns normally or raises that kind. -/
theorem errorKindOf_pyTry_wrap {α : Type} (body : Except Exc α) (k : ExcKind)
    (g : Exc → String) :
    errorKindOf (pyTry body (fun e => Except.error ⟨k, g e⟩)) = none ∨
      errorKindOf (pyTry body (fun e => Except.error ⟨k, g e⟩)) = some k := by
  cases body with
  | ok a => exact Or.inl rfl
  | error e => exact Or.inr rfl

/-- C1 (amended): for every collaborator behavior and every input,
`obfuscate_document` returns an `ObfuscationResult` and never lets an
exception escape (every exception is converted by the error handler into a
failure result), while `evaluate_quality` either returns a `QualityReport` or
raises an `ObfuscationError` wrapping the failure — the claim that neither
entry point throws holds only for `obfuscate_document`. -/
theorem entry_points_exception_contract (env : AppEnv) (sourcePath : String)
    (terms : List String) (destinationPath : Option String) (engine : String)
    (flag : Bool) (originalPath obfuscatedPath : String) (qTerms : List String)
    (engineUsed : String) :
    (∃ r, obfuscateDocument env sourcePath terms destinationPath engine flag =
      Except.ok r) ∧
    (errorKindOf (evaluateQuality env originalPath obfuscatedPath qTerms
        engineUsed) = none ∨
      errorKindOf (evaluateQuality env originalPath obfuscatedPath qTerms
        engineUsed) = some ExcKind.obfuscation) := by
  constructor
  · exact pyTry_ok_handler _ _
  · exact errorKindOf_pyTry_wrap _ _ _

/-- C1 (counterexample): with a storage collaborator that reports the files as
missing, `evaluate_quality` raises an `ObfuscationError` instead of returning
a failure `QualityReport`, so an exception does escape this entry point. -/
theorem evaluate_quality_exception_escapes_concrete :
    errorKindOf (evaluateQuality envNoFiles "a.pdf" "b.pdf" ["t"] "pymupdf") =
      some ExcKind.obfuscation := by
  decide

/-- C2 (amended): every `Position` built by the pypdfium2 adapter satisfies
the ordering invariant `x0 ≤ x1` and `y0 ≤ y1` (enforced by explicit min/max),
but in the engine's native bottom-left-origin coordinates — no flip to the
top-left convention is performed (see the counterexample). -/
theorem pypdfium2Position_ordered (first last : CharBox) (count : ℕ) :
    (pypdfium2Position first last count).x0 ≤
      (pypdfium2Position first last count).x1 ∧
    (pypdfium2Position first last count).y0 ≤
      (pypdfium2Position first last count).y1 := by
  refine ⟨?_, ?_⟩ <;> simp [pypdfium2Position]

/-- C2 (counterexample): for the charbox (10, 10, 20, 20) on a page of height
100, the adapter returns y-coordinates (10, 20) unchanged, not the
top-left-normalized (80, 90) the coordinate contract demands; the
construction never consults the page height at all. -/
theorem pypdfium2Position_not_top_left_normalized :
    pypdfium2Position ⟨10, 10, 20, 20⟩ ⟨10, 10, 20, 20⟩ 1 ≠
      specTopLeftPypdfium2Position 100 ⟨10, 10, 20, 20⟩ ⟨10, 10, 20, 20⟩ 1 := by
  simp only [pypdfium2Position, specTopLeftPypdfium2Position, pypdfium2MergedBox,
    ne_eq, Position.mk.injEq, not_and]
  norm_num

/-- The completeness score as a closed formula over the two found-term lists:
the score returned by `evaluate_completeness` is the ratio of
(terms found in the original minus terms found in the obfuscated document) to
terms found in the original, and 1 when the original contains none. -/
theorem evaluateCompleteness_score_eq (orig obf : String) (terms : List String) :
    (evaluateCompleteness orig obf terms).score =
      if (findTermsInText orig terms).length = 0 then 1
      else (((findTermsInText orig terms).length : ℚ) -
          ((findTermsInText obf terms).length : ℚ)) /
        ((findTermsInText orig terms).length : ℚ) := by
  simp only [evaluateCompleteness]
  rcases Nat.eq_zero_or_pos (findTermsInText orig terms).length with h | h
  · simp [h]
  · rw [if_pos h, if_neg (by omega)]
    push_cast
    ring_nf

/-- C7 (code evaluated at the failing input): with original text "aa",
obfuscated text "aa bb" and terms ["aa", "bb"] — one term visible only in the
obfuscated text — `evaluate_completeness` produces the score −1, outside the
documented interval [0, 1]. -/
theorem completeness_score_escapes_unit_interval :
    (evaluateCompleteness "aa" "aa bb" ["aa", "bb"]).score = -1 := by
  have h1 : (findTermsInText "aa" ["aa", "bb"]).length = 1 := by decide
  have h2 : (findTermsInText "aa bb" ["aa", "bb"]).length = 2 := by decide
  rw [evaluateCompleteness_score_eq, h1, h2]
  norm_num

/-- C4: for every pair of extracted texts and every term list, the
completeness score equals (number of terms present case-insensitively in the
original − number of terms present in the redacted text) divided by the
former, and 1 when no term is present in the original. -/
theorem evaluateCompleteness_score_formula (orig obf : String)
    (terms : List String) :
    (evaluateCompleteness orig obf terms).score =
      if terms.countP (fun t => termPresent orig t) = 0 then 1
      else ((terms.countP (fun t => termPresent orig t) : ℚ) -
          (terms.countP (fun t => termPresent obf t) : ℚ)) /
        (terms.countP (fun t => termPresent orig t) : ℚ) := by
  rw [evaluateCompleteness_score_eq]
  simp [findTermsInText, List.countP_eq_length_filter]

/-- C3 (counterexample): the missing word "ohn" is a substring of length 3 of
the target term "john doe", yet the classifier returns `false` — the
multi-word branch returns before the substring case is reached — and the
precision scorer therefore counts "ohn" as a false positive. -/
theorem substring_of_multiword_term_is_false_positive :
    isWordObfuscationTarget "ohn" (mkTargetData "john doe") = false ∧
    2 ≤ (normalizePunctuationStr "ohn").data.length ∧
    (normalizePunctuationStr "ohn").data <:+: (mkTargetData "john doe").term.data ∧
    (evaluatePrecision "aa ohn" "aa" ["john doe"]).falsePositives = ["ohn"] := by
  refine ⟨by decide, by decide, by decide, by decide⟩

/-- C3 (amended): a missing word is classified as intentionally redacted iff
its normalization exactly equals the normalized lowercased target term, or —
for a multi-word target — equals one of the target's tokens, or — for a
single-token target only — is a substring of length ≥ 2 of the target; the
substring rule is never applied to multi-word targets. -/
theorem isWordObfuscationTarget_iff (missingWord term : String) :
    isWordObfuscationTarget missingWord (mkTargetData term) = true ↔
      (normalizePunctuationStr missingWord = (mkTargetData term).term ∨
        (1 < (mkTargetData term).words.length ∧
          normalizePunctuationStr missingWord ∈
            (mkTargetData term).words.map normalizePunctuationStr) ∨
        ((mkTargetData term).words.length ≤ 1 ∧
          2 ≤ (normalizePunctuationStr missingWord).data.length ∧
          (normalizePunctuationStr missingWord).data <:+:
            (mkTargetData term).term.data)) := by
  set td := mkTargetData term with htd
  set m := normalizePunctuationStr missingWord with hm
  simp only [isWordObfuscationTarget, ← hm]
  split_ifs with h1 h2 h3
  · simp [h1]
  · simp only [List.elem_eq_mem, decide_eq_true_eq]
    constructor
    · intro hmem
      exact Or.inr (Or.inl ⟨h2, by simpa using hmem⟩)
    · rintro (h | ⟨_, hmem⟩ | ⟨hle, _⟩)
      · exact absurd h h1
      · simpa using hmem
      · omega
  · simp only [true_iff]
    exact Or.inr (Or.inr ⟨by omega, h3.1, h3.2⟩)
  · simp only [false_iff]
    rintro (h | ⟨hlt, _⟩ | ⟨_, hlen, hinf⟩)
    · exact h1 h
    · exact h2 hlt
    · exact h3 ⟨hlen, hinf⟩

/-- C6 (amended): the success factory sets `total_occurrences_obfuscated` to
the sum of the occurrence counts of its found term results, as the invariant
demands; the error factory keeps the given term results but always sets the
total to 0, so for it the invariant holds only when no term result is
found. -/
theorem factory_results_occurrence_count (outputDoc err : String)
    (rs : List TermResult) (engine : String) :
    (createSuccessResult outputDoc rs engine).totalOccurrencesObfuscated =
      (((createSuccessResult outputDoc rs engine).termResults.filter
        TermResult.wasFound).map TermResult.occurrencesCount).sum ∧
    (createErrorResult err rs engine).totalOccurrencesObfuscated = 0 ∧
    (createErrorResult err rs engine).termResults = rs := by
  exact ⟨rfl, rfl, rfl⟩

/-- C6 (counterexample): a term result list with one found occurrence gives an
error result whose `total_occurrences_obfuscated` is 0 while the sum over its
found term results is 1, so the aggregate-count invariant fails on the error
factory path. -/
theorem createErrorResult_count_mismatch :
    (createErrorResult "boom" [sampleFoundTermResult] "pymupdf").totalOccurrencesObfuscated = 0 ∧
    (((createErrorResult "boom" [sampleFoundTermResult] "pymupdf").termResults.filter
        TermResult.wasFound).map TermResult.occurrencesCount).sum = 1 := by
  refine ⟨rfl, by decide⟩

/-- `normalize_punctuation` distributes over concatenation. -/
theorem normalizePunctuation_append (a b : List Char) :
    normalizePunctuation (a ++ b) =
      normalizePunctuation a ++ normalizePunctuation b := by
  simp [normalizePunctuation]

/-- `normalize_punctuation` fixes any string all of whose characters it
fixes. -/
theorem normalizePunctuation_fixed {m : List Char}
    (h : ∀ d ∈ m, normalizeChar d = [d]) : normalizePunctuation m = m := by
  induction m with
  | nil => rfl
  | cons d m ih =>
    simp only [normalizePunctuation, List.map_cons, List.flatten_cons]
    rw [h d (by simp)]
    simpa [normalizePunctuation] using ih (fun x hx => h x (by simp [hx]))

/-- C10 (amended): `normalize_punctuation` is idempotent on every string whose
characters are stable — their normalizations consist of characters the
function fixes — which covers all ASCII and all accented-Latin text; by the
accompanying counterexample it is not idempotent on arbitrary strings. -/
theorem normalizePunctuation_idempotent_on_stable (l : List Char)
    (h : ∀ c ∈ l, goodChar c = true) :
    normalizePunctuation (normalizePunctuation l) = normalizePunctuation l := by
  induction l with
  | nil => rfl
  | cons c l ih =>
    have hc : ∀ d ∈ normalizeChar c, normalizeChar d = [d] := by
      have hg := h c (by simp)
      simpa [goodChar, List.all_eq_true] using hg
    have hcons : normalizePunctuation (c :: l) =
        normalizeChar c ++ normalizePunctuation l := by
      simp [normalizePunctuation]
    rw [hcons, normalizePunctuation_append, normalizePunctuation_fixed hc,
      ih (fun x hx => h x (by simp [hx]))]

/-- C10 (witness): the accented possessive "café" ++ U+2019 ++ "s" consists of
stable characters, and `normalize_punctuation` is idempotent on it. -/
theorem normalizePunctuation_idempotent_witness :
    (∀ c ∈ ("café".data ++ [rsquoChar] ++ "s".data), goodChar c = true) ∧
    normalizePunctuation
        (normalizePunctuation ("café".data ++ [rsquoChar] ++ "s".data)) =
      normalizePunctuation ("café".data ++ [rsquoChar] ++ "s".data) :=
  ⟨by decide, normalizePunctuation_idempotent_on_stable _ (by decide)⟩

/-- C10 (counterexample): on the one-character string U+1FEF GREEK VARIA the
first application yields the backtick U+0060 (its canonical decomposition,
kept since it is not a combining mark), and the second application replaces
that backtick by an apostrophe, so `normalize_punctuation` is not
idempotent. -/
theorem normalizePunctuation_not_idempotent :
    normalizePunctuation (normalizePunctuation [greekVariaChar]) ≠
      normalizePunctuation [greekVariaChar] := by
  decide

/-- The number of missing words never exceeds the number of original words:
the matching loop emits at most one missing word per original word. -/
theorem removeLoop_missing_length_le (ws rem : List String) :
    (removeLoop ws rem).2.length ≤ ws.length := by
  induction ws generalizing rem with
  | nil => simp [removeLoop]
  | cons w ws ih =>
    simp only [removeLoop, List.length_cons]
    split_ifs with h
    · exact le_trans (ih _) (Nat.le_succ _)
    · simp only [List.length_cons]
      exact Nat.succ_le_succ (ih rem)

/-- Rounding to three decimals keeps values of the unit interval inside the
unit interval. -/
theorem round3_bounds {q : ℚ} (h0 : 0 ≤ q) (h1 : q ≤ 1) :
    0 ≤ round3 q ∧ round3 q ≤ 1 := by
  unfold round3
  rw [round_eq]
  have hf0 : (0 : ℤ) ≤ ⌊q * 1000 + 1 / 2⌋ := Int.floor_nonneg.mpr (by linarith)
  have hf1 : ⌊q * 1000 + 1 / 2⌋ ≤ 1000 := by
    have hlt : ⌊q * 1000 + 1 / 2⌋ < (1001 : ℤ) :=
      Int.floor_lt.mpr (by push_cast; linarith)
    omega
  constructor
  · apply div_nonneg _ (by norm_num)
    exact_mod_cast hf0
  · rw [div_le_one (by norm_num)]
    exact_mod_cast hf1

/-- The precision score as a closed formula over the result's own fields:
1 − false-positive count / original word count, rounded to three decimals,
and 1 when there are no original words. -/
theorem evaluatePrecision_score_eq (orig obf : String) (ts : List String) :
    (evaluatePrecision orig obf ts).score =
      if (evaluatePrecision orig obf ts).totalOriginalWords = 0 then 1
      else round3 (1 -
        ((evaluatePrecision orig obf ts).falsePositives.length : ℚ) /
        ((evaluatePrecision orig obf ts).totalOriginalWords : ℚ)) := by
  unfold evaluatePrecision
  simp only [evaluatePrecisionFromWords]
  rcases Nat.eq_zero_or_pos (sortWords (cleanWords orig)).length with h | h
  · simp [h]
  · rw [if_pos h, if_neg (by omega)]

/-- C5 (amended): the precision score equals 1 − fp/total rounded to three
decimal places (1 when total = 0); the false-positive count never exceeds the
total, so the "floored at 0" clause never takes effect, and the score always
lies in [0, 1]. -/
theorem evaluatePrecision_score_spec (orig obf : String) (ts : List String) :
    (evaluatePrecision orig obf ts).score =
      (if (evaluatePrecision orig obf ts).totalOriginalWords = 0 then 1
       else round3 (1 -
         ((evaluatePrecision orig obf ts).falsePositives.length : ℚ) /
         ((evaluatePrecision orig obf ts).totalOriginalWords : ℚ))) ∧
    (evaluatePrecision orig obf ts).falsePositives.length ≤
      (evaluatePrecision orig obf ts).totalOriginalWords ∧
    0 ≤ (evaluatePrecision orig obf ts).score ∧
    (evaluatePrecision orig obf ts).score ≤ 1 := by
  have hfp : (evaluatePrecision orig obf ts).falsePositives.length ≤
      (evaluatePrecision orig obf ts).totalOriginalWords := by
    unfold evaluatePrecision
    simp only [evaluatePrecisionFromWords]
    exact le_trans (List.length_filter_le _ _)
      (removeLoop_missing_length_le _ _)
  refine ⟨evaluatePrecision_score_eq orig obf ts, hfp, ?_⟩
  rw [evaluatePrecision_score_eq orig obf ts]
  rcases Nat.eq_zero_or_pos (evaluatePrecision orig obf ts).totalOriginalWords
    with h | h
  · rw [if_pos h]
    norm_num
  · rw [if_neg (by omega)]
    have hq0 : (0 : ℚ) ≤ 1 -
        ((evaluatePrecision orig obf ts).falsePositives.length : ℚ) /
        ((evaluatePrecision orig obf ts).totalOriginalWords : ℚ) := by
      have hden : (0 : ℚ) < (evaluatePrecision orig obf ts).totalOriginalWords := by
        exact_mod_cast h
      have hle : ((evaluatePrecision orig obf ts).falsePositives.length : ℚ) ≤
          ((evaluatePrecision orig obf ts).totalOriginalWords : ℚ) := by
        exact_mod_cast hfp
      have := (div_le_one hden).mpr hle
      linarith
    have hq1 : (1 : ℚ) -
        ((evaluatePrecision orig obf ts).falsePositives.length : ℚ) /
        ((evaluatePrecision orig obf ts).totalOriginalWords : ℚ) ≤ 1 := by
      have hden : (0 : ℚ) < (evaluatePrecision orig obf ts).totalOriginalWords := by
        exact_mod_cast h
      have hnum : (0 : ℚ) ≤ ((evaluatePrecision orig obf ts).falsePositives.length : ℚ) := by
        positivity
      have := div_nonneg hnum (le_of_lt hden)
      linarith
    exact round3_bounds hq0 hq1

/-- C5 (counterexample): with original "aa bb cc", obfuscated "aa bb" and
term list ["zz"], the false-positive count is 1 out of 3 original words; the
code returns round(1 − 1/3, 3) = 0.667, not the exact 1 − 1/3 the claim
states. -/
theorem evaluatePrecision_score_is_rounded :
    (evaluatePrecision "aa bb cc" "aa bb" ["zz"]).falsePositives.length = 1 ∧
    (evaluatePrecision "aa bb cc" "aa bb" ["zz"]).totalOriginalWords = 3 ∧
    (evaluatePrecision "aa bb cc" "aa bb" ["zz"]).score = 667 / 1000 ∧
    (evaluatePrecision "aa bb cc" "aa bb" ["zz"]).score ≠ 1 - (1 : ℚ) / 3 := by
  have h1 : (evaluatePrecision "aa bb cc" "aa bb" ["zz"]).falsePositives.length = 1 := by
    decide
  have h2 : (evaluatePrecision "aa bb cc" "aa bb" ["zz"]).totalOriginalWords = 3 := by
    decide
  have hfloor : ⌊((1 : ℚ) - 1 / 3) * 1000 + 1 / 2⌋ = 667 := by
    rw [Int.floor_eq_iff]
    constructor <;> norm_num
  have hscore : (evaluatePrecision "aa bb cc" "aa bb" ["zz"]).score = 667 / 1000 := by
    rw [evaluatePrecision_score_eq, h1, h2]
    rw [if_neg (by norm_num)]
    unfold round3
    rw [round_eq]
    push_cast
    rw [hfloor]
    norm_num
  refine ⟨h1, h2, hscore, ?_⟩
  rw [hscore]
  norm_num

/-- Tokenization maps permuted token streams to permuted cleaned word
lists. -/
theorem cleanWords_perm {t1 t2 : String}
    (h : List.Perm (splitWs (t1.data.map Char.toLower))
      (splitWs (t2.data.map Char.toLower))) :
    List.Perm (cleanWords t1) (cleanWords t2) := by
  unfold cleanWords
  exact (h.filter _).map _

/-- Sorting maps permutation-equivalent word lists to the same list: sorted
lists that are permutations of each other are equal. -/
theorem sortWords_eq_of_perm {a b : List String} (h : List.Perm a b) :
    sortWords a = sortWords b := by
  have hp : List.Perm (sortWords a) (sortWords b) :=
    ((List.perm_insertionSort wordLe a).trans h).trans
      (List.perm_insertionSort wordLe b).symm
  exact List.eq_of_perm_of_sorted hp (List.sorted_insertionSort wordLe a)
    (List.sorted_insertionSort wordLe b)

/-- C8: permuting the whitespace-separated words of either OCR text leaves
the precision score unchanged — both token streams are sorted before the
multiset comparison, so only the multiset of words matters. -/
theorem evaluatePrecision_perm_invariant (orig1 orig2 obf1 obf2 : String)
    (terms : List String)
    (ho : List.Perm (splitWs (orig1.data.map Char.toLower))
      (splitWs (orig2.data.map Char.toLower)))
    (hb : List.Perm (splitWs (obf1.data.map Char.toLower))
      (splitWs (obf2.data.map Char.toLower))) :
    (evaluatePrecision orig1 obf1 terms).score =
      (evaluatePrecision orig2 obf2 terms).score := by
  unfold evaluatePrecision
  rw [sortWords_eq_of_perm (cleanWords_perm ho),
    sortWords_eq_of_perm (cleanWords_perm hb)]

/-- C8 (witness): the texts "b a" and "a b" are word-order permutations of
each other and receive the same precision score against the text "a" and the
term list ["b"]. -/
theorem evaluatePrecision_perm_invariant_witness :
    List.Perm (splitWs (("b a" : String).data.map Char.toLower))
      (splitWs (("a b" : String).data.map Char.toLower)) ∧
    (evaluatePrecision "b a" "a" ["b"]).score =
      (evaluatePrecision "a b" "a" ["b"]).score :=
  ⟨by decide,
    evaluatePrecision_perm_invariant "b a" "a b" "a" "a" ["b"] (by decide)
      (by decide)⟩

/-- An element produced by the pymupdf deduplication loop is never in the
seen set the loop started from. -/
theorem mem_dedupSeen : ∀ (l seen : List Position) (x : Position),
    x ∈ dedupSeen l seen → x ∉ seen
  | [], _, x => by simp [dedupSeen]
  | r :: rs, seen, x => by
    simp only [dedupSeen]
    split_ifs with h
    · exact mem_dedupSeen rs seen x
    · intro hx
      rcases List.mem_cons.mp hx with rfl | hx₂
      · exact h
      · have hnot := mem_dedupSeen rs (r :: seen) x hx₂
        intro hseen
        exact hnot (List.mem_cons_of_mem _ hseen)

/-- The pymupdf deduplication loop returns a duplicate-free list. -/
theorem dedupSeen_nodup : ∀ (l seen : List Position), (dedupSeen l seen).Nodup
  | [], _ => by simp [dedupSeen]
  | r :: rs, seen => by
    simp only [dedupSeen]
    split_ifs with h
    · exact dedupSeen_nodup rs seen
    · refine List.nodup_cons.mpr ⟨?_, dedupSeen_nodup rs (r :: seen)⟩
      intro hr
      exact (mem_dedupSeen rs (r :: seen) r hr) (List.mem_cons_self r seen)

/-- Within one pymupdf page, no two occurrences share a bounding box. -/
theorem pymupdfPage_pairwise (term : String) (n : ℕ)
    (il : List (List Position)) :
    (pymupdfPage term n il).Pairwise
      (fun a b => a.pageNumber = b.pageNumber → a.position ≠ b.position) := by
  unfold pymupdfPage
  refine List.Pairwise.map _ (fun a b hab => ?_) (dedupSeen_nodup il.flatten [])
  exact fun _ hpos => hab hpos

/-- Every occurrence the pymupdf page loop emits from start index `i` has
page number at least `i + 1`. -/
theorem mem_pymupdfExtractAux_page (term : String) :
    ∀ (i : ℕ) (ps : List (List (List Position))) (o : TermOccurrence),
      o ∈ pymupdfExtractAux term i ps → i + 1 ≤ o.pageNumber
  | _, [], o => by simp [pymupdfExtractAux]
  | i, p :: ps, o => by
    simp only [pymupdfExtractAux, List.mem_append]
    rintro (h | h)
    · unfold pymupdfPage at h
      rcases List.mem_map.mp h with ⟨r, _, rfl⟩
      exact Nat.le_refl _
    · exact Nat.le_of_succ_le (mem_pymupdfExtractAux_page term (i + 1) ps o h)

/-- The pymupdf page loop never emits two occurrences with the same page and
the same bounding box. -/
theorem pymupdfExtractAux_pairwise (term : String) :
    ∀ (i : ℕ) (ps : List (List (List Position))),
      (pymupdfExtractAux term i ps).Pairwise
        (fun a b => a.pageNumber = b.pageNumber → a.position ≠ b.position)
  | _, [] => by simp [pymupdfExtractAux]
  | i, p :: ps => by
    simp only [pymupdfExtractAux]
    refine List.pairwise_append.mpr
      ⟨pymupdfPage_pairwise term (i + 1) p,
        pymupdfExtractAux_pairwise term (i + 1) ps, ?_⟩
    intro a ha b hb heq
    have hb₂ := mem_pymupdfExtractAux_page term (i + 1) ps b hb
    have ha₂ : a.pageNumber = i + 1 := by
      unfold pymupdfPage at ha
      rcases List.mem_map.mp ha with ⟨r, _, rfl⟩
      rfl
    rw [ha₂] at heq
    exact absurd hb₂ (by omega)

/-- C9 (amended): the pymupdf adapter never returns two occurrences with the
same page number and identical bounding-box coordinates — its per-page
seen-set collapses identical regions found via different case variants; the
pdfplumber adapter performs no such deduplication (see the counterexample). -/
theorem pymupdfExtract_no_duplicate_boxes (term : String)
    (pages : List (List (List Position))) :
    (pymupdfExtract term pages).Pairwise
      (fun a b => a.pageNumber = b.pageNumber → a.position ≠ b.position) :=
  pymupdfExtractAux_pairwise term 0 pages

/-- C9 (counterexample): two identical word records on one page — as produced
by double-printed (shadowed) text — make the pdfplumber single-word search
emit two occurrences with the same page number and identical coordinates:
the adapter has no deduplication step. -/
theorem pdfplumber_duplicate_occurrences :
    ¬ (pdfplumberSingleWord "ab" 1 [samplePWord, samplePWord]).Pairwise
      (fun a b => a.pageNumber = b.pageNumber → a.position ≠ b.position) := by
  intro hp
  unfold pdfplumberSingleWord at hp
  have hcond : (lowerStr "ab").data <:+: (lowerStr samplePWord.text).data := by
    decide
  have hfind : findSub (lowerStr "ab").data (lowerStr samplePWord.text).data =
      some 0 := by decide
  simp only [List.map_cons, List.map_nil, List.flatten, if_pos hcond, hfind,
    List.append_nil, List.singleton_append, List.pairwise_cons, List.mem_cons,
    List.mem_singleton, List.not_mem_nil, forall_eq] at hp
  exact hp.1 _ (Or.inl rfl) rfl rfl

end PdfObfuscation
